import Mathlib

/-!
Shallow embedding of `lib/max6675.py`, a bit-banged SPI driver for the
MAX6675 thermocouple-to-digital converter, together with proofs of the
specification's claims about it.

Modelling conventions:
* GPIO side effects are recorded as an explicit trace of `GpioEvent`s.
* The data-in line is modelled as a function `din : Nat → Bool` giving the
  level sampled at the i-th `GPIO.input(data_pin)` call of a `read`.
* Python `float` arithmetic is modelled over `ℚ`; every constant involved
  (0.25, 273.15, 9/5, 32) is exact.
* Python exceptions (`TypeError` on `None & 0x4`, `AttributeError` from
  `getattr`) are modelled with `Except PyError`.
* `self.data`, which is `None` until the first `read`, is an `Option Nat`.
-/

/-- GPIO pin level (`GPIO.HIGH` / `GPIO.LOW`). -/
inductive Level where
  | low
  | high
deriving DecidableEq

/-- GPIO pin direction (`GPIO.OUT` / `GPIO.IN`). -/
inductive Dir where
  | outp
  | inp
deriving DecidableEq

/-- One call into the `RPi.GPIO` collaborator. -/
inductive GpioEvent where
  | setmode (board : Nat)
  | setup (pin : Nat) (dir : Dir)
  | output (pin : Nat) (level : Level)
  | input (pin : Nat)
deriving DecidableEq

/-- The pin an event addresses (`none` for `setmode`). -/
def GpioEvent.pin : GpioEvent → Option Nat
  | .setmode _ => none
  | .setup p _ => some p
  | .output p _ => some p
  | .input p => some p

/-- Python exceptions that the driver's code paths can raise. -/
inductive PyError where
  | typeError
  | attributeError
deriving DecidableEq

/-- The fields of a `MAX6675` instance, as assigned in `__init__`. -/
structure MAX6675 where
  cs_pin : Nat
  clock_pin : Nat
  data_pin : Nat
  units : String
  power_pin : Nat
  data : Option Nat
  board : Nat
  noConnection : Bool
  shortToGround : Bool
  shortToVCC : Bool
  unknownError : Bool

namespace MAX6675

/-- Python `__init__`: stores the fields and performs the construction-time
GPIO calls (set mode, optional power pin driven high, configure cs/clock as
outputs and data as input, drive chip select high). -/
def init (cs_pin clock_pin data_pin : Nat) (units : String)
    (power_pin : Nat) (board : Nat) : MAX6675 × List GpioEvent :=
  (⟨cs_pin, clock_pin, data_pin, units, power_pin, none, board,
    false, false, false, false⟩,
   [GpioEvent.setmode board] ++
   (if power_pin > 0 then
      [GpioEvent.setup power_pin Dir.outp,
       GpioEvent.output power_pin Level.high]
    else []) ++
   [GpioEvent.setup cs_pin Dir.outp,
    GpioEvent.setup clock_pin Dir.outp,
    GpioEvent.setup data_pin Dir.inp,
    GpioEvent.output cs_pin Level.high])

/-- The body of `read`'s `for i in range(16)` loop, one list element per
iteration: clock low, shift accumulator left, sample data-in (setting the
low bit when high), clock high. Returns the final accumulator and the
trace. -/
def readLoop (clock_pin data_pin : Nat) : List Bool → Nat → Nat × List GpioEvent
  | [], bytesin => (bytesin, [])
  | b :: rest, bytesin =>
    let bytesin1 := bytesin <<< 1
    let bytesin2 := if b then bytesin1 ||| 1 else bytesin1
    let r := readLoop clock_pin data_pin rest bytesin2
    (r.1,
     GpioEvent.output clock_pin Level.low ::
     GpioEvent.input data_pin ::
     GpioEvent.output clock_pin Level.high :: r.2)

/-- Method `read`: selects the chip, clocks in 16 bits MSB first (the i-th
sampled level being `din i`), deselects the chip, and stores the
accumulator in `self.data`. -/
def read (s : MAX6675) (din : Nat → Bool) : MAX6675 × List GpioEvent :=
  let r := readLoop s.clock_pin s.data_pin ((List.range 16).map din) 0
  ({ s with data := some r.1 },
   GpioEvent.output s.cs_pin Level.low ::
     (r.2 ++ [GpioEvent.output s.cs_pin Level.high]))

/-- Method `checkErrors(data_16 = None)`: with no argument it reads
`self.data` (raising `TypeError` via `None & 0x4` when that is still
`None`); computes `anyErrors = (data_16 & 0x4) != 0` and stores it in
`self.noConnection`. The returned `Bool` is the local `anyErrors` value. -/
def checkErrors (s : MAX6675) (arg : Option Nat) :
    Except PyError (Bool × MAX6675) :=
  match (match arg with | none => s.data | some v => some v) with
  | none => Except.error PyError.typeError
  | some data_16 =>
    let anyErrors := decide ((data_16 &&& 0x4) ≠ 0)
    Except.ok (anyErrors, { s with noConnection := anyErrors })

/-- Method `convert_tc_data`: thermocouple counts to celsius, 0.25 °C per
count. -/
def convert_tc_data (tc_data : Nat) : ℚ :=
  (tc_data : ℚ) * 0.25

/-- Method `data_to_tc_temperature(data_16 = None)`: with no argument it
reads `self.data` (raising `TypeError` via `None >> 3` when that is still
`None`); shifts right by 3 and converts. -/
def data_to_tc_temperature (s : MAX6675) (arg : Option Nat) :
    Except PyError ℚ :=
  match (match arg with | none => s.data | some v => some v) with
  | none => Except.error PyError.typeError
  | some data_16 => Except.ok (convert_tc_data (data_16 >>> 3))

/-- Method `to_c`: celsius passthrough. -/
def to_c (celsius : ℚ) : ℚ := celsius

/-- Method `to_k`: convert celsius to kelvin. -/
def to_k (celsius : ℚ) : ℚ := celsius + 273.15

/-- Method `to_f`: convert celsius to fahrenheit. -/
def to_f (celsius : ℚ) : ℚ := celsius * 9.0 / 5.0 + 32

/-- Models `getattr(self, "to_" + units)`: resolves the unit-conversion
method, failing with `AttributeError` for an unknown unit string. -/
def unitFun : String → Option (ℚ → ℚ)
  | "c" => some to_c
  | "k" => some to_k
  | "f" => some to_f
  | _ => none

/-- Method `get`: `self.read()`, then `self.checkErrors()`, then returns
`getattr(self, "to_" + self.units)(self.data_to_tc_temperature())`.
Returns the produced value or exception, the state after the call, and the
GPIO trace. Note the source never raises on a fault: `checkErrors` only
sets the `noConnection` flag. -/
def get (s : MAX6675) (din : Nat → Bool) :
    Except PyError ℚ × MAX6675 × List GpioEvent :=
  let r := s.read din
  let s1 := r.1
  match s1.checkErrors none with
  | Except.error e => (Except.error e, s1, r.2)
  | Except.ok p =>
    let s2 := p.2
    match unitFun s2.units with
    | none => (Except.error PyError.attributeError, s2, r.2)
    | some conv =>
      match s2.data_to_tc_temperature none with
      | Except.error e => (Except.error e, s2, r.2)
      | Except.ok t => (Except.ok (conv t), s2, r.2)

/-- Method `cleanup`: reconfigures chip-select and clock to inputs; touches
no field of the instance. -/
def cleanup (s : MAX6675) : MAX6675 × List GpioEvent :=
  (s, [GpioEvent.setup s.cs_pin Dir.inp, GpioEvent.setup s.clock_pin Dir.inp])

end MAX6675

/-- The write levels a trace issues to a given pin, in order. -/
def writesTo (p : Nat) (tr : List GpioEvent) : List Level :=
  tr.filterMap fun e =>
    match e with
    | GpioEvent.output q l => if q = p then some l else none
    | _ => none

/-- One public operation on a reader instance, for whole-lifecycle
invariants. -/
inductive Op where
  | read (din : Nat → Bool)
  | checkErrors (arg : Option Nat)
  | get (din : Nat → Bool)
  | cleanup

/-- The state after running one operation (a raised exception leaves the
state as it was at the raise point). -/
def stepOp (s : MAX6675) : Op → MAX6675
  | Op.read din => (s.read din).1
  | Op.checkErrors arg =>
    match s.checkErrors arg with
    | Except.error _ => s
    | Except.ok p => p.2
  | Op.get din => (s.get din).2.1
  | Op.cleanup => (s.cleanup).1

/-- The state after a sequence of operations. -/
def runOps (s : MAX6675) : List Op → MAX6675
  | [] => s
  | op :: rest => runOps (stepOp s op) rest

/-- The numeric value of a big-endian bit list (head is the most
significant bit). -/
def bitsVal : List Bool → Nat
  | [] => 0
  | b :: rest => (if b then 2 ^ rest.length else 0) + bitsVal rest

/-- The 16-bit frame a `read` assembles from the sampled data-in levels. -/
def readFrame (s : MAX6675) (din : Nat → Bool) : Nat :=
  (MAX6675.readLoop s.clock_pin s.data_pin ((List.range 16).map din) 0).1

/-- Data-in samples that spell the frame `0x0480` MSB first. -/
def din0480 : Nat → Bool := fun i => Nat.testBit 0x0480 (15 - i)

/-- Data-in samples that spell the frame `0x0004` (fault bit set) MSB
first. -/
def din0004 : Nat → Bool := fun i => Nat.testBit 0x0004 (15 - i)

/-- Data-in line constantly low: the all-zero frame. -/
def dinZero : Nat → Bool := fun _ => false

/-- A freshly constructed reader in celsius (cs 4, clock 23, data 22, no
power pin, board mode 11 = BCM). -/
def freshC : MAX6675 := (MAX6675.init 4 23 22 "c" 0 11).1

/-- A freshly constructed reader in fahrenheit. -/
def freshF : MAX6675 := (MAX6675.init 4 23 22 "f" 0 11).1

/-- A freshly constructed reader in kelvin. -/
def freshK : MAX6675 := (MAX6675.init 4 23 22 "k" 0 11).1

lemma mul_two_or_one (a : Nat) : a * 2 ||| 1 = a * 2 + 1 := by
  apply Nat.eq_of_testBit_eq
  intro i
  cases i with
  | zero =>
    simp [Nat.testBit_or, Nat.testBit_zero, Nat.mul_add_mod]
    omega
  | succ n =>
    rw [Nat.testBit_or]
    have h1 : a * 2 / 2 = a := by omega
    have h2 : (a * 2 + 1) / 2 = a := by omega
    simp [Nat.testBit_succ, h1, h2]

lemma readLoop_val (c d : Nat) (bits : List Bool) (acc : Nat) :
    (MAX6675.readLoop c d bits acc).1 = acc * 2 ^ bits.length + bitsVal bits := by
  induction bits generalizing acc with
  | nil => simp [MAX6675.readLoop, bitsVal]
  | cons b rest ih =>
    simp only [MAX6675.readLoop, bitsVal, List.length_cons]
    rw [ih]
    rcases b with _ | _
    · simp [Nat.shiftLeft_eq, pow_succ]
      ring
    · simp [Nat.shiftLeft_eq, mul_two_or_one, pow_succ]
      ring

lemma bitsVal_lt (bits : List Bool) : bitsVal bits < 2 ^ bits.length := by
  induction bits with
  | nil => simp [bitsVal]
  | cons b rest ih =>
    have h2 : (2 : Nat) ^ (b :: rest).length = 2 * 2 ^ rest.length := by
      rw [List.length_cons, pow_succ]; ring
    rcases b with _ | _ <;> simp [bitsVal] <;> omega

lemma bitsVal_map_range (din : Nat → Bool) (n : Nat) :
    bitsVal ((List.range n).map din) =
      ∑ i ∈ Finset.range n, if din i then 2 ^ (n - 1 - i) else 0 := by
  induction n generalizing din with
  | zero => simp [bitsVal]
  | succ m ih =>
    rw [List.range_succ_eq_map]
    simp only [List.map_cons, List.map_map, bitsVal, List.length_map,
      List.length_range, Function.comp_def, Nat.succ_eq_add_one]
    rw [Finset.sum_range_succ']
    rw [ih (fun i => din (i + 1))]
    have he : ∀ i ∈ Finset.range m, (if din (i + 1) then 2 ^ (m - 1 - i) else 0) =
        (if din (i + 1) then 2 ^ (m + 1 - 1 - (i + 1)) else 0) := by
      intro i hi
      congr 2
      omega
    rw [Finset.sum_congr rfl he]
    have h0 : m + 1 - 1 - 0 = m := by omega
    rw [h0]
    omega

lemma readFrame_lt (s : MAX6675) (din : Nat → Bool) : readFrame s din < 2 ^ 16 := by
  unfold readFrame
  rw [readLoop_val]
  have h := bitsVal_lt ((List.range 16).map din)
  simp only [List.length_map, List.length_range] at h ⊢
  omega

lemma readLoop_trace (c d : Nat) (bits : List Bool) (acc : Nat) :
    (MAX6675.readLoop c d bits acc).2 =
      List.flatten (List.replicate bits.length
        [GpioEvent.output c Level.low, GpioEvent.input d,
         GpioEvent.output c Level.high]) := by
  induction bits generalizing acc with
  | nil => simp [MAX6675.readLoop]
  | cons b rest ih => simp [MAX6675.readLoop, List.replicate_succ, ih]

lemma read_result (s : MAX6675) (din : Nat → Bool) :
    s.read din = ({s with data := some (readFrame s din)},
      GpioEvent.output s.cs_pin Level.low ::
        (List.flatten (List.replicate 16
          [GpioEvent.output s.clock_pin Level.low, GpioEvent.input s.data_pin,
           GpioEvent.output s.clock_pin Level.high]) ++
         [GpioEvent.output s.cs_pin Level.high])) := by
  simp only [MAX6675.read, readFrame]
  rw [readLoop_trace]
  simp

lemma get_ok (s : MAX6675) (din : Nat → Bool) (conv : ℚ → ℚ)
    (h : MAX6675.unitFun s.units = some conv) :
    (s.get din).1 = Except.ok (conv (MAX6675.convert_tc_data (readFrame s din >>> 3))) := by
  simp [MAX6675.get, MAX6675.read, MAX6675.checkErrors, MAX6675.data_to_tc_temperature,
    readFrame, h]

lemma get_state (s : MAX6675) (din : Nat → Bool) (conv : ℚ → ℚ)
    (h : MAX6675.unitFun s.units = some conv) :
    (s.get din).2.1 = { s with data := some (readFrame s din),
                               noConnection := decide ((readFrame s din &&& 0x4) ≠ 0) } := by
  simp [MAX6675.get, MAX6675.read, MAX6675.checkErrors, MAX6675.data_to_tc_temperature,
    readFrame, h]

lemma writesTo_nil (p : Nat) : writesTo p [] = [] := rfl

lemma writesTo_cons_output_self (p : Nat) (l : Level) (tr : List GpioEvent) :
    writesTo p (GpioEvent.output p l :: tr) = l :: writesTo p tr := by
  simp [writesTo]

lemma writesTo_cons_output_ne (p q : Nat) (l : Level) (tr : List GpioEvent)
    (h : q ≠ p) :
    writesTo p (GpioEvent.output q l :: tr) = writesTo p tr := by
  simp [writesTo, h]

lemma writesTo_append (p : Nat) (t1 t2 : List GpioEvent) :
    writesTo p (t1 ++ t2) = writesTo p t1 ++ writesTo p t2 := by
  simp [writesTo]

lemma writesTo_block (c d : Nat) (n : Nat) :
    writesTo c (List.flatten (List.replicate n
      [GpioEvent.output c Level.low, GpioEvent.input d,
       GpioEvent.output c Level.high])) =
    List.flatten (List.replicate n [Level.low, Level.high]) := by
  induction n with
  | zero => simp [writesTo]
  | succ m ih =>
    simp only [List.replicate_succ, List.flatten_cons, writesTo,
      List.filterMap_append] at ih ⊢
    simp [ih]

lemma writesTo_block_ne (p c d : Nat) (hp : p ≠ c) (n : Nat) :
    writesTo p (List.flatten (List.replicate n
      [GpioEvent.output c Level.low, GpioEvent.input d,
       GpioEvent.output c Level.high])) = [] := by
  induction n with
  | zero => simp [writesTo]
  | succ m ih =>
    simp only [List.replicate_succ, List.flatten_cons, writesTo,
      List.filterMap_append] at ih ⊢
    simp [ih, Ne.symm hp, hp]

lemma frame0480 : readFrame freshC din0480 = 0x0480 := by decide

lemma frame0004 : readFrame freshC din0004 = 0x0004 := by decide

lemma stepOp_flags (s : MAX6675) (op : Op) :
    (stepOp s op).shortToGround = s.shortToGround ∧
    (stepOp s op).shortToVCC = s.shortToVCC ∧
    (stepOp s op).unknownError = s.unknownError := by
  cases op with
  | read din => simp [stepOp, MAX6675.read]
  | checkErrors arg =>
    cases arg with
    | some v => simp [stepOp, MAX6675.checkErrors]
    | none =>
      cases hd : s.data with
      | none => simp [stepOp, MAX6675.checkErrors, hd]
      | some v => simp [stepOp, MAX6675.checkErrors, hd]
  | get din =>
    cases hu : MAX6675.unitFun s.units with
    | none => simp [stepOp, MAX6675.get, MAX6675.read, MAX6675.checkErrors, hu]
    | some conv =>
      simp [stepOp, MAX6675.get, MAX6675.read, MAX6675.checkErrors,
        MAX6675.data_to_tc_temperature, hu]
  | cleanup => simp [stepOp, MAX6675.cleanup]

lemma runOps_flags (s : MAX6675) (ops : List Op) :
    (runOps s ops).shortToGround = s.shortToGround ∧
    (runOps s ops).shortToVCC = s.shortToVCC ∧
    (runOps s ops).unknownError = s.unknownError := by
  induction ops generalizing s with
  | nil => exact ⟨rfl, rfl, rfl⟩
  | cons op rest ih =>
    have h1 := stepOp_flags s op
    have h2 := ih (stepOp s op)
    simp only [runOps]
    exact ⟨h2.1.trans h1.1, h2.2.1.trans h1.2.1, h2.2.2.trans h1.2.2⟩

/-- Claim C1 (status: code_bug). The spec requires `Get()` to signal a
ThermocoupleFault error instead of returning a temperature whenever
`CheckErrors` reports a fault. The code does not: on the fault frame
`0x0004` (bit 2 set), `checkErrors` reports the fault (and sets the
no-connection flag), yet `get()` still returns the converted temperature
`0.0` and raises nothing — even though the module defines `MAX6675Error`
and its own example code catches that error from `get()`. This theorem
evaluates the code at the failing input. -/
theorem C1_get_ignores_fault :
    ((freshC.read din0004).1).data = some 0x0004 ∧
    (freshC.read din0004).1.checkErrors none =
      Except.ok (true, { (freshC.read din0004).1 with noConnection := true }) ∧
    (freshC.get din0004).1 = Except.ok 0 ∧
    (freshC.get din0004).2.1.noConnection = true := by
  refine ⟨?_, ?_, ?_, ?_⟩
  · rw [read_result]
    simp [frame0004]
  · rw [read_result]
    simp only [MAX6675.checkErrors, frame0004]
    norm_num
  · rw [get_ok freshC din0004 MAX6675.to_c rfl, frame0004]
    have hsh4 : (0x0004 : Nat) >>> 3 = 0 := by decide
    rw [hsh4]
    norm_num [MAX6675.convert_tc_data, MAX6675.to_c]
  · rw [get_state freshC din0004 MAX6675.to_c rfl]
    simp [frame0004]

/-- Claim C2 (status: confirmed). For every 16-bit frame `f`,
`data_to_tc_temperature(f)` equals `((f >> 3) & 0x1FFF) * 0.25`: the frame
shifted right by 3 bits (discarding the 3 low-order status bits) times
0.25, with the temperature field unsigned. -/
theorem C2_decode_shift_scale (s : MAX6675) (f : Nat) (h : f < 2 ^ 16) :
    s.data_to_tc_temperature (some f) =
      Except.ok ((((f >>> 3) &&& 0x1FFF : Nat) : ℚ) * 0.25) := by
  have hlt : f >>> 3 < 2 ^ 13 := by
    rw [Nat.shiftRight_eq_div_pow]
    omega
  have hm : (f >>> 3) &&& 0x1FFF = f >>> 3 := by
    have h13 : (0x1FFF : Nat) = 2 ^ 13 - 1 := by norm_num
    rw [h13]
    exact Nat.and_pow_two_sub_one_of_lt_two_pow hlt
  simp [MAX6675.data_to_tc_temperature, MAX6675.convert_tc_data, hm]

/-- Witness for C2 at the concrete frame `0x0480`. -/
theorem C2_decode_shift_scale_witness : (0x0480 : Nat) < 2 ^ 16 ∧
    freshC.data_to_tc_temperature (some 0x0480) =
      Except.ok ((((0x0480 >>> 3) &&& 0x1FFF : Nat) : ℚ) * 0.25) :=
  ⟨by norm_num, C2_decode_shift_scale freshC 0x0480 (by norm_num)⟩

/-- Claim C3 (status: confirmed). For every sequence of 16 sampled data-in
levels `b0..b15` (`b i = din i`, `b0` sampled first), `read()` stores as
the current frame the value `∑ i, b i * 2 ^ (15 - i)`: the 16 bits
accumulated most-significant bit first. -/
theorem C3_read_msb_first (s : MAX6675) (din : Nat → Bool) :
    ((s.read din).1).data =
      some (∑ i ∈ Finset.range 16, if din i then 2 ^ (15 - i) else 0) := by
  rw [read_result]
  simp only [Option.some.injEq]
  unfold readFrame
  rw [readLoop_val, bitsVal_map_range]
  norm_num

/-- Claim C4 (status: confirmed). For every frame `f`, `checkErrors(f)`
reports a fault iff bit 2 of `f` is set (`(f & 0x4) ≠ 0`), independent of
every other bit, and it stores exactly that fault value in the
no-connection flag. -/
theorem C4_fault_bit (s : MAX6675) (f : Nat) :
    s.checkErrors (some f) =
      Except.ok (decide ((f &&& 0x4) ≠ 0),
        { s with noConnection := decide ((f &&& 0x4) ≠ 0) }) ∧
    ((f &&& 0x4) ≠ 0 ↔ f.testBit 2 = true) := by
  constructor
  · rfl
  · rw [show (0x4 : Nat) = 2 ^ 2 by norm_num, Nat.and_two_pow]
    rcases h : f.testBit 2 <;> simp [h]

/-- Claim C5 (status: confirmed). The unit conversions are exact affine
transforms and pure functions: `to_k c = c + 273.15`,
`to_f c = c * 9 / 5 + 32`, `to_c c = c`. -/
theorem C5_conversions_affine (c : ℚ) :
    MAX6675.to_k c = c + 273.15 ∧ MAX6675.to_f c = c * 9 / 5 + 32 ∧
    MAX6675.to_c c = c :=
  ⟨rfl, by norm_num [MAX6675.to_f], rfl⟩

/-- Claim C6 (status: confirmed). Every call to `read()` issues exactly 16
clock low-then-high toggles and exactly one chip-select low-then-high
bracket, regardless of the sampled data values. -/
theorem C6_read_clocking (s : MAX6675) (din : Nat → Bool)
    (h : s.cs_pin ≠ s.clock_pin) :
    writesTo s.clock_pin (s.read din).2 =
      List.flatten (List.replicate 16 [Level.low, Level.high]) ∧
    writesTo s.cs_pin (s.read din).2 = [Level.low, Level.high] := by
  rw [read_result]
  dsimp only
  constructor
  · rw [writesTo_cons_output_ne _ _ _ _ h, writesTo_append,
      writesTo_block s.clock_pin s.data_pin 16,
      writesTo_cons_output_ne _ _ _ _ h, writesTo_nil, List.append_nil]
  · rw [writesTo_cons_output_self, writesTo_append,
      writesTo_block_ne s.cs_pin s.clock_pin s.data_pin h 16,
      writesTo_cons_output_self, writesTo_nil, List.nil_append]

/-- Witness for C6 on a concrete reader with all data-in samples low. -/
theorem C6_read_clocking_witness :
    freshC.cs_pin ≠ freshC.clock_pin ∧
    (writesTo freshC.clock_pin (freshC.read dinZero).2 =
       List.flatten (List.replicate 16 [Level.low, Level.high]) ∧
     writesTo freshC.cs_pin (freshC.read dinZero).2 = [Level.low, Level.high]) :=
  ⟨by decide, C6_read_clocking freshC dinZero (by decide)⟩

/-- Claim C7 (status: confirmed). When the device returns the fault-free
frame `0x0480` (count 144), `get()` returns 36.0 in celsius, 96.8 in
fahrenheit, and 309.15 in kelvin, and the no-connection flag stays
false. -/
theorem C7_frame_0480_values :
    (freshC.get din0480).1 = Except.ok 36 ∧
    (freshF.get din0480).1 = Except.ok 96.8 ∧
    (freshK.get din0480).1 = Except.ok 309.15 ∧
    (freshC.get din0480).2.1.noConnection = false := by
  have hF : readFrame freshF din0480 = 0x0480 := by decide
  have hK : readFrame freshK din0480 = 0x0480 := by decide
  have hsh : (0x0480 : Nat) >>> 3 = 144 := by decide
  have hand : (0x0480 : Nat) &&& 0x4 = 0 := by decide
  refine ⟨?_, ?_, ?_, ?_⟩
  · rw [get_ok freshC din0480 MAX6675.to_c rfl, frame0480, hsh]
    norm_num [MAX6675.convert_tc_data, MAX6675.to_c]
  · rw [get_ok freshF din0480 MAX6675.to_f rfl, hF, hsh]
    norm_num [MAX6675.convert_tc_data, MAX6675.to_f]
  · rw [get_ok freshK din0480 MAX6675.to_k rfl, hK, hsh]
    norm_num [MAX6675.convert_tc_data, MAX6675.to_k]
  · rw [get_state freshC din0480 MAX6675.to_c rfl]
    simp [frame0480, hand]

/-- Claim C8 (status: confirmed). `cleanup()` reconfigures exactly the
chip-select and clock pins to input mode, performs no other GPIO
operation, never touches the data-in or power pin (when those are distinct
from cs/clock), and leaves every stored field unchanged. -/
theorem C8_cleanup_selective (s : MAX6675) (hd1 : s.data_pin ≠ s.cs_pin)
    (hd2 : s.data_pin ≠ s.clock_pin) (hp1 : s.power_pin ≠ s.cs_pin)
    (hp2 : s.power_pin ≠ s.clock_pin) :
    s.cleanup = (s, [GpioEvent.setup s.cs_pin Dir.inp,
                     GpioEvent.setup s.clock_pin Dir.inp]) ∧
    ∀ e ∈ (s.cleanup).2, e.pin ≠ some s.data_pin ∧ e.pin ≠ some s.power_pin := by
  refine ⟨rfl, ?_⟩
  intro e he
  simp only [MAX6675.cleanup, List.mem_cons, List.mem_singleton,
    List.not_mem_nil] at he
  rcases he with h | h | h
  · subst h
    constructor <;> simp [GpioEvent.pin] <;> omega
  · subst h
    constructor <;> simp [GpioEvent.pin] <;> omega
  · exact absurd h (by simp)

/-- Witness for C8 on a concrete reader (cs 4, clock 23, data 22,
power 0). -/
theorem C8_cleanup_selective_witness :
    freshC.data_pin ≠ freshC.cs_pin ∧ freshC.data_pin ≠ freshC.clock_pin ∧
    freshC.power_pin ≠ freshC.cs_pin ∧ freshC.power_pin ≠ freshC.clock_pin ∧
    (freshC.cleanup = (freshC, [GpioEvent.setup freshC.cs_pin Dir.inp,
                                GpioEvent.setup freshC.clock_pin Dir.inp]) ∧
     ∀ e ∈ (freshC.cleanup).2, e.pin ≠ some freshC.data_pin ∧
       e.pin ≠ some freshC.power_pin) :=
  ⟨by decide, by decide, by decide, by decide,
   C8_cleanup_selective freshC (by decide) (by decide) (by decide) (by decide)⟩

/-- Claim C9 (status: confirmed). The shortToGround, shortToVCC, and
unknownError flags are invariantly false: they start false at construction
and no sequence of `read`, `checkErrors`, `get`, `cleanup` operations ever
sets any of them to true. -/
theorem C9_spare_flags_never_set (cs_pin clock_pin data_pin : Nat)
    (units : String) (power_pin board : Nat) (ops : List Op) :
    (runOps (MAX6675.init cs_pin clock_pin data_pin units power_pin board).1
        ops).shortToGround = false ∧
    (runOps (MAX6675.init cs_pin clock_pin data_pin units power_pin board).1
        ops).shortToVCC = false ∧
    (runOps (MAX6675.init cs_pin clock_pin data_pin units power_pin board).1
        ops).unknownError = false := by
  have h := runOps_flags
    (MAX6675.init cs_pin clock_pin data_pin units power_pin board).1 ops
  simpa [MAX6675.init] using h

/-- Counterexample to claim C10 as stated: on a freshly constructed reader
(stored frame still `None`), `get()` does not fail with a type error — it
calls `read()` first, which fills `self.data`, so it returns a temperature
(0 for the all-zero frame). -/
theorem C10_counterexample_get_succeeds :
    freshC.data = none ∧ (freshC.get dinZero).1 = Except.ok 0 := by
  constructor
  · rfl
  · rw [get_ok freshC dinZero MAX6675.to_c rfl]
    have h0 : readFrame freshC dinZero = 0 := by decide
    rw [h0]
    norm_num [MAX6675.convert_tc_data, MAX6675.to_c]

/-- Claim C10 (status: corrected). Before the first `read()` the stored
frame is `None`, so the no-argument calls `checkErrors()` and
`data_to_tc_temperature()` on a freshly constructed reader fail with a
type error; `get()` however succeeds since it performs `read()` first.
After any `read()` the stored frame is an integer in `[0, 2^16)`, under
which precondition both no-argument calls succeed. -/
theorem C10_none_frame_type_errors (cs_pin clock_pin data_pin : Nat)
    (units : String) (power_pin board : Nat) (s : MAX6675) (din : Nat → Bool) :
    ((MAX6675.init cs_pin clock_pin data_pin units power_pin board).1.data = none ∧
     (MAX6675.init cs_pin clock_pin data_pin units power_pin board).1.checkErrors
       none = Except.error PyError.typeError ∧
     (MAX6675.init cs_pin clock_pin data_pin units power_pin board).1.data_to_tc_temperature
       none = Except.error PyError.typeError) ∧
    ∃ v, ((s.read din).1).data = some v ∧ v < 2 ^ 16 ∧
      (∃ b s2, (s.read din).1.checkErrors none = Except.ok (b, s2)) ∧
      (∃ t, (s.read din).1.data_to_tc_temperature none = Except.ok t) := by
  refine ⟨⟨rfl, rfl, rfl⟩, readFrame s din, ?_, readFrame_lt s din, ?_, ?_⟩
  · rw [read_result]
  · exact ⟨decide ((readFrame s din &&& 0x4) ≠ 0),
      { (s.read din).1 with noConnection := decide ((readFrame s din &&& 0x4) ≠ 0) },
      by rw [read_result]; simp [MAX6675.checkErrors]⟩
  · exact ⟨MAX6675.convert_tc_data (readFrame s din >>> 3),
      by rw [read_result]; simp [MAX6675.data_to_tc_temperature]⟩
